import Mathlib

/-!
Verification development for the exam-generator repository.

The Python sources are shallowly embedded here:
* `src/ingest.py` — date parsing (`parse_date`) and relevance scoring
  (`calculate_relevance_score`).
* `src/critic.py` — critique score extraction and exam-level aggregation
  (`evaluate_exam`).
* `src/generator.py` — response parsing of `generate_question`.
* `src/retriever.py` — section statistics and diversity retrieval.
* `main.py` — section allocation, the generate/evaluate loop, and
  question-bank reading.

Machine integers are modelled as `Int`/`Nat`; Python floats are modelled as
exact rationals (`ℚ`); datetimes are modelled at day granularity (midnight
datetimes, as produced by `strptime` on date-only formats).  Regular
expression matching in the sources is modelled by a small nondeterministic
parser whose alternatives are produced in the priority order of Python's
backtracking regex engine, so that the first element of the result list is
the match Python would report.
-/

namespace ExamGen

/-- Whitespace character class: the ASCII characters matched by Python's
regex class `\s` and stripped by `str.strip()`. -/
def isPySpace (c : Char) : Bool :=
  c == ' ' || c == '\t' || c == '\n' || c == '\r' || c == '\x0b' || c == '\x0c'

/-- Nondeterministic parser over character lists.  A parser returns every
possible (value, remaining-input) pair, ordered by the priority Python's
backtracking regex engine would explore them in, so the head of the list is
the match Python reports. -/
def NP (α : Type) : Type := List Char → List (α × List Char)

/-- Parser that consumes nothing and returns one value. -/
def npPure {α : Type} (a : α) : NP α := fun s => [(a, s)]

/-- Sequential composition of nondeterministic parsers. -/
def npBind {α β : Type} (p : NP α) (f : α → NP β) : NP β :=
  fun s => (p s).flatMap (fun ar => f ar.1 ar.2)

/-- Map a function over the parsed value. -/
def npMap {α β : Type} (f : α → β) (p : NP α) : NP β :=
  fun s => (p s).map (fun ar => (f ar.1, ar.2))

/-- Ordered alternation: results of `p` are preferred over results of `q`,
matching regex alternation priority. -/
def npAlt {α : Type} (p q : NP α) : NP α := fun s => p s ++ q s

/-- Parser that always fails. -/
def npFail {α : Type} : NP α := fun _ => []

/-- Match a literal character sequence case-insensitively, returning the rest
of the input.  Models a literal inside a regex compiled with `re.IGNORECASE`. -/
def dropCI : List Char → List Char → Option (List Char)
  | [], s => some s
  | _ :: _, [] => none
  | c :: cs, d :: ds => if c.toLower == d.toLower then dropCI cs ds else none

/-- Match a literal character sequence exactly, returning the rest. -/
def dropExact : List Char → List Char → Option (List Char)
  | [], s => some s
  | _ :: _, [] => none
  | c :: cs, d :: ds => if c == d then dropExact cs ds else none

/-- Case-insensitive literal parser. -/
def npLitCI (lit : String) : NP Unit := fun s =>
  match dropCI lit.data s with
  | some r => [((), r)]
  | none => []

/-- Case-sensitive literal parser. -/
def npLit (lit : String) : NP Unit := fun s =>
  match dropExact lit.data s with
  | some r => [((), r)]
  | none => []

/-- Greedy one-or-more repetition of a character class (regex `+`): the
alternatives are the nonempty prefixes of the maximal run, longest first. -/
def npPlusGreedy (pred : Char → Bool) : NP (List Char) := fun s =>
  let run := s.takeWhile pred
  let rest := s.drop run.length
  (List.range run.length).map (fun i =>
    let k := run.length - i
    (run.take k, run.drop k ++ rest))

/-- Greedy zero-or-more repetition of a character class (regex `*`). -/
def npStarGreedy (pred : Char → Bool) : NP (List Char) :=
  npAlt (npPlusGreedy pred) (npPure [])

/-- Greedy option (regex `?`): prefer consuming `p`, fall back to `dflt`. -/
def npOptGreedy {α : Type} (p : NP α) (dflt : α) : NP α :=
  npAlt p (npPure dflt)

/-- Numeric value of an ASCII digit. -/
def digitVal (c : Char) : Nat := c.toNat - '0'.toNat

/-- Natural number denoted by a digit sequence. -/
def digitsVal (cs : List Char) : Nat :=
  cs.foldl (fun acc c => acc * 10 + digitVal c) 0

/-- Rational value of a fractional digit sequence (the digits after a dot). -/
def fracVal (cs : List Char) : ℚ :=
  (digitsVal cs : ℚ) / ((10 : ℚ) ^ cs.length)

/-- Parser for the regex group `(\d+(?:\.\d+)?)`, returning the captured
characters (as `re.findall` returns the group text).  The fractional branch
is preferred, matching the greedy `?`. -/
def npNumGroup : NP (List Char) :=
  npBind (npPlusGreedy Char.isDigit) (fun intPart =>
    npAlt
      (npBind (npLit ".") (fun _ =>
        npBind (npPlusGreedy Char.isDigit) (fun frac =>
          npPure (intPart ++ '.' :: frac))))
      (npPure intPart))

/-- Python `float()` on a captured group of shape `\d+(\.\d+)?`. -/
def pyFloat (cs : List Char) : ℚ :=
  let ip := cs.takeWhile Char.isDigit
  match cs.drop ip.length with
  | '.' :: fp => (digitsVal ip : ℚ) + fracVal fp
  | _ => (digitsVal ip : ℚ)

/-- Unanchored leftmost search: try the parser at each start position from
the left and report the first (highest-priority) match, as `re.findall`
reports its first element. -/
def npSearch {α : Type} (p : NP α) : List Char → Option α
  | [] =>
    match p [] with
    | ar :: _ => some ar.1
    | [] => none
  | c :: t =>
    match p (c :: t) with
    | ar :: _ => some ar.1
    | [] => npSearch p t

/-- Parsed calendar date, the payload `datetime.strptime` extracts from the
date-only formats used in `ingest.parse_date`. -/
structure PDate where
  year : Nat
  month : Nat
  day : Nat
deriving DecidableEq, Repr

/-- Day-of-month field `%d`: the CPython `_strptime` regex
alternation `3[01]|[12]\d|0[1-9]|[1-9]`, in that priority order. -/
def npDay : NP Nat := fun s =>
  (match s with
   | c0 :: c1 :: r =>
     (if c0 == '3' && (c1 == '0' || c1 == '1') then [(30 + digitVal c1, r)] else [])
       ++ (if (c0 == '1' || c0 == '2') && c1.isDigit then
             [(digitVal c0 * 10 + digitVal c1, r)] else [])
       ++ (if c0 == '0' && c1.isDigit && !(c1 == '0') then [(digitVal c1, r)] else [])
   | _ => [])
  ++ (match s with
   | c0 :: r => if c0.isDigit && !(c0 == '0') then [(digitVal c0, r)] else []
   | _ => [])

/-- Month-number field `%m`: regex `1[0-2]|0[1-9]|[1-9]`, in priority order. -/
def npMonthNum : NP Nat := fun s =>
  (match s with
   | c0 :: c1 :: r =>
     (if c0 == '1' && (c1 == '0' || c1 == '1' || c1 == '2') then
        [(10 + digitVal c1, r)] else [])
       ++ (if c0 == '0' && c1.isDigit && !(c1 == '0') then [(digitVal c1, r)] else [])
   | _ => [])
  ++ (match s with
   | c0 :: r => if c0.isDigit && !(c0 == '0') then [(digitVal c0, r)] else []
   | _ => [])

/-- Year field `%Y`: regex `\d\d\d\d`, exactly four digits. -/
def npYear : NP Nat := fun s =>
  match s with
  | a :: b :: c :: d :: r =>
    if a.isDigit && b.isDigit && c.isDigit && d.isDigit then
      [(digitsVal [a, b, c, d], r)]
    else []
  | _ => []

/-- Full English month names, as matched (case-insensitively) by `%B`. -/
def monthNamesFull : List (String × Nat) :=
  [("January", 1), ("February", 2), ("March", 3), ("April", 4), ("May", 5),
   ("June", 6), ("July", 7), ("August", 8), ("September", 9), ("October", 10),
   ("November", 11), ("December", 12)]

/-- Abbreviated English month names, as matched (case-insensitively) by `%b`. -/
def monthNamesAbbr : List (String × Nat) :=
  [("Jan", 1), ("Feb", 2), ("Mar", 3), ("Apr", 4), ("May", 5), ("Jun", 6),
   ("Jul", 7), ("Aug", 8), ("Sep", 9), ("Oct", 10), ("Nov", 11), ("Dec", 12)]

/-- Alternation over a table of month names (none is a prefix of another, so
alternation order is immaterial here). -/
def npMonthOf (names : List (String × Nat)) : NP Nat :=
  names.foldr (fun nv acc => npAlt (npMap (fun _ => nv.2) (npLitCI nv.1)) acc) npFail

/-- Whitespace run: `strptime` compiles whitespace in a format string to `\s+`. -/
def npWsPlus : NP Unit := npMap (fun _ => ()) (npPlusGreedy isPySpace)

/-- Format `"<month> %d, %Y"`, shared shape of `"%B %d, %Y"` and `"%b %d, %Y"`. -/
def fmtMonthDayYear (month : NP Nat) : NP PDate :=
  npBind month (fun m =>
    npBind npWsPlus (fun _ =>
      npBind npDay (fun d =>
        npBind (npLit ",") (fun _ =>
          npBind npWsPlus (fun _ =>
            npBind npYear (fun y => npPure ⟨y, m, d⟩))))))

/-- Format `"%Y-%m-%d"`. -/
def fmtIso : NP PDate :=
  npBind npYear (fun y =>
    npBind (npLit "-") (fun _ =>
      npBind npMonthNum (fun m =>
        npBind (npLit "-") (fun _ =>
          npBind npDay (fun d => npPure ⟨y, m, d⟩)))))

/-- Format `"%m/%d/%Y"`. -/
def fmtSlash : NP PDate :=
  npBind npMonthNum (fun m =>
    npBind (npLit "/") (fun _ =>
      npBind npDay (fun d =>
        npBind (npLit "/") (fun _ =>
          npBind npYear (fun y => npPure ⟨y, m, d⟩)))))

/-- Leap-year test of the proleptic Gregorian calendar used by `datetime`. -/
def isLeapYear (y : Nat) : Bool :=
  y % 4 == 0 && (y % 100 != 0 || y % 400 == 0)

/-- Number of days in a month. -/
def daysInMonth (y m : Nat) : Nat :=
  if m = 2 then (if isLeapYear y then 29 else 28)
  else if m = 4 ∨ m = 6 ∨ m = 9 ∨ m = 11 then 30
  else 31

/-- Calendar validity as enforced by the `datetime` constructor after the
regex match (year at least `MINYEAR = 1`, day within the month). -/
def validPDate (d : PDate) : Bool :=
  1 ≤ d.year && 1 ≤ d.month && d.month ≤ 12 && 1 ≤ d.day &&
    d.day ≤ daysInMonth d.year d.month

/-- Run one `strptime` format on a string: the regex engine reports its
priority-first match anchored at the start; `strptime` then rejects it if any
input remains unconsumed, and the `datetime` constructor rejects invalid
calendar dates (both surface as `ValueError`, here `none`). -/
def runStrptime (p : NP PDate) (s : String) : Option PDate :=
  match p s.data with
  | (v, rest) :: _ => if rest.isEmpty && validPDate v then some v else none
  | [] => none

/-- The four formats tried by `ingest.parse_date`, in source order. -/
def dateFormats : List (NP PDate) :=
  [fmtMonthDayYear (npMonthOf monthNamesFull),
   fmtMonthDayYear (npMonthOf monthNamesAbbr),
   fmtIso, fmtSlash]

/-- First format that parses the string, mirroring the `for fmt in formats`
loop with `except ValueError: continue`. -/
def tryFormatsAux : List (NP PDate) → String → Option PDate
  | [], _ => none
  | f :: fs, s =>
    match runStrptime f s with
    | some d => some d
    | none => tryFormatsAux fs s

/-- Result of the format loop in `ingest.parse_date`. -/
def tryFormats (s : String) : Option PDate := tryFormatsAux dateFormats s

/-- Embeds `ingest.parse_date`: try the four formats in order and fall back
to `datetime(2000, 1, 1)` when none matches.  The function is total — the
source's outer `except Exception` can never fire for a string input. -/
def parse_date (s : String) : PDate := (tryFormats s).getD ⟨2000, 1, 1⟩

/-- Day number of a proleptic Gregorian date (days since 0000-03-01), so that
differences agree with Python `datetime` subtraction in days. -/
def toDays (d : PDate) : Int :=
  let y := if d.month ≤ 2 then d.year - 1 else d.year
  let era := y / 400
  let yoe := y - era * 400
  let mp := (d.month + 9) % 12
  let doy := (153 * mp + 2) / 5 + (d.day - 1)
  let doe := yoe * 365 + yoe / 4 - yoe / 100 + doy
  ((era * 146097 + doe : Nat) : Int)

/-- Exam metadata, the fields of `models.ExamMetadata` used by scoring
(`university`, `faculty`, `time`, `duration`, `source_ids` are carried along
in the source but never read by the scorer and are omitted). -/
structure ExamMetadata where
  course : String
  date : String
deriving DecidableEq, Repr

/-- A bank question, the fields of `models.Question` used by scoring
(optional `content_description`, `source_ids`, `images`, `equations`,
`answer_choices` are never read by the scorer and are omitted).  The source
field `section` is spelled `sectionName` because `section` is a Lean
keyword. -/
structure Question where
  question_number : String
  sectionName : String
  marks : Int
  text : String
deriving DecidableEq, Repr

/-- An exam, as in `models.Exam`. -/
structure Exam where
  exam_metadata : ExamMetadata
  questions : List Question
deriving DecidableEq, Repr

/-- Embeds `models.Exam.get_total_marks`. -/
def getTotalMarks (e : Exam) : Int := (e.questions.map (fun q => q.marks)).sum

/-- Python `min` of two rationals, written as an executable conditional. -/
def pyMin (a b : ℚ) : ℚ := if a ≤ b then a else b

/-- Python `max` of two rationals, written as an executable conditional. -/
def pyMax (a b : ℚ) : ℚ := if a ≤ b then b else a

/-- Embeds `ingest.calculate_relevance_score`.  `current_date` is the day
number of the (midnight) reference datetime.  The source wraps the date
computation in `try/except` defaulting `date_score` to `0.5`, but that branch
is unreachable: `parse_date` is total and never raises, so it is omitted
here. -/
def calculate_relevance_score (exam : Exam) (question : Question)
    (current_date : Int) : ℚ :=
  let exam_total := getTotalMarks exam
  let difficulty_score : ℚ :=
    if exam_total = 0 then 0
    else pyMin ((question.marks : ℚ) / (exam_total : ℚ)) 1
  let exam_date := toDays (parse_date exam.exam_metadata.date)
  let days_old : Int := current_date - exam_date
  let date_score : ℚ := pyMax 0 (1 - (days_old : ℚ) / 3650)
  (6 / 10) * difficulty_score + (4 / 10) * date_score

/-- Keyword alternation `(?:score|quality|rating)` of the first critic
pattern. -/
def npScoreKw : NP Unit :=
  npAlt (npLitCI "score") (npAlt (npLitCI "quality") (npLitCI "rating"))

/-- Separator class `[:\s]+`. -/
def npColonWs : NP Unit :=
  npMap (fun _ => ()) (npPlusGreedy (fun c => c == ':' || isPySpace c))

/-- Optional whitespace `\s*`. -/
def npWsStar : NP Unit := npMap (fun _ => ()) (npStarGreedy isPySpace)

/-- Critic pattern 1:
`(?:score|quality|rating)[:\s]+(\d+(?:\.\d+)?)\s*(?:/|out of)\s*10`. -/
def critic_p1 : NP (List Char) :=
  npBind npScoreKw (fun _ =>
    npBind npColonWs (fun _ =>
      npBind npNumGroup (fun v =>
        npBind npWsStar (fun _ =>
          npBind (npAlt (npLit "/") (npLitCI "out of")) (fun _ =>
            npBind npWsStar (fun _ =>
              npBind (npLit "10") (fun _ => npPure v)))))))

/-- Critic pattern 2: `(\d+(?:\.\d+)?)\s*/?\s*10`. -/
def critic_p2 : NP (List Char) :=
  npBind npNumGroup (fun v =>
    npBind npWsStar (fun _ =>
      npBind (npOptGreedy (npLit "/") ()) (fun _ =>
        npBind npWsStar (fun _ =>
          npBind (npLit "10") (fun _ => npPure v)))))

/-- Keyword alternation `(?:Overall|Quality|Score)` of the third critic
pattern. -/
def npHeadKw : NP Unit :=
  npAlt (npLitCI "Overall") (npAlt (npLitCI "Quality") (npLitCI "Score"))

/-- Critic pattern 3: `(?:Overall|Quality|Score)[:\s]+(\d+(?:\.\d+)?)`. -/
def critic_p3 : NP (List Char) :=
  npBind npHeadKw (fun _ =>
    npBind npColonWs (fun _ =>
      npBind npNumGroup (fun v => npPure v)))

/-- Critic pattern 4: `(\d+(?:\.\d+)?)\s*(?:out of|/)\s*10`. -/
def critic_p4 : NP (List Char) :=
  npBind npNumGroup (fun v =>
    npBind npWsStar (fun _ =>
      npBind (npAlt (npLitCI "out of") (npLit "/")) (fun _ =>
        npBind npWsStar (fun _ =>
          npBind (npLit "10") (fun _ => npPure v)))))

/-- The ordered pattern list of `QuestionCritic.evaluate_question`. -/
def scorePatterns : List (NP (List Char)) := [critic_p1, critic_p2, critic_p3, critic_p4]

/-- The pattern loop of `QuestionCritic.evaluate_question`: for each pattern
in order, take its first match, convert it with `float()`; accept it if its
value lies in `[0, 10]`, otherwise move on to the next pattern; default
`7.0`. -/
def extract_score : List (NP (List Char)) → List Char → ℚ
  | [], _ => 7
  | p :: ps, s =>
    match npSearch p s with
    | some cap =>
      let potential_score := pyFloat cap
      if 0 ≤ potential_score ∧ potential_score ≤ 10 then potential_score
      else extract_score ps s
    | none => extract_score ps s

/-- Score parsed by `QuestionCritic.evaluate_question` from a critique
text. -/
def parseScore (text : String) : ℚ := extract_score scorePatterns text.data

/-- A generated question, as in `models.GeneratedQuestion`.  The source field
`section` is spelled `sectionName` because `section` is a Lean keyword. -/
structure GeneratedQuestion where
  question_number : String
  sectionName : String
  marks : Int
  text : String
  answer_choices : Option (List String)
  explanation : Option String
deriving DecidableEq, Repr

/-- Result of `QuestionCritic.evaluate_question` for one question, as read by
the exam-level aggregation (the dictionary's `feedback` and `question`
entries are never read by `evaluate_exam`'s aggregation and are omitted). -/
structure QuestionEval where
  score : ℚ
  approved : Bool
deriving DecidableEq, Repr

/-- Result of `QuestionCritic.evaluate_exam` (the `question_evaluations`
entry, the per-question list itself, is recoverable as `questions.map evalQ`
and is omitted from the record). -/
structure ExamEvaluation where
  overall_score : ℚ
  approval_rate : ℚ
  approved_questions : Nat
  total_questions : Nat
  mark_distribution_ok : Bool
  total_marks : Int
  exam_approved : Bool
deriving DecidableEq, Repr

/-- Embeds `QuestionCritic.evaluate_exam`.  The per-question evaluation
(`evaluate_question`, an external generation-service call) is abstracted as
the function argument `evalQ`. -/
def evaluate_exam (questions : List GeneratedQuestion)
    (evalQ : GeneratedQuestion → QuestionEval) : ExamEvaluation :=
  let question_evaluations := questions.map evalQ
  let total_score := (question_evaluations.map (fun e => e.score)).sum
  let avg_score : ℚ :=
    if question_evaluations.length = 0 then 0
    else total_score / (question_evaluations.length : ℚ)
  let approved_count := question_evaluations.countP (fun e => e.approved)
  let approval_rate : ℚ :=
    if question_evaluations.length = 0 then 0
    else (approved_count : ℚ) / (question_evaluations.length : ℚ)
  let total_marks : Int := (questions.map (fun q => q.marks)).sum
  let mark_distribution_ok := decide ((total_marks - 100).natAbs ≤ 10)
  { overall_score := avg_score
    approval_rate := approval_rate
    approved_questions := approved_count
    total_questions := questions.length
    mark_distribution_ok := mark_distribution_ok
    total_marks := total_marks
    exam_approved := decide ((7 : ℚ) / 10 ≤ approval_rate) && mark_distribution_ok }

/-- Suffix of `s` after the last non-overlapping occurrence of `sep`
(Python `s.split(sep)[-1]`), or `none` when `sep` does not occur.  Fueled
recursion; the fuel `s.length` always suffices for nonempty `sep`. -/
def afterLastAux (sep : List Char) : Nat → List Char → Option (List Char)
  | 0, _ => none
  | fuel + 1, s =>
    match s with
    | [] => none
    | _ :: t =>
      match dropExact sep s with
      | some r =>
        match afterLastAux sep fuel r with
        | some r2 => some r2
        | none => some r
      | none => afterLastAux sep fuel t

/-- Suffix after the last occurrence of a marker string. -/
def afterLastMarker (sep s : List Char) : Option (List Char) :=
  afterLastAux sep s.length s

/-- Python `str.strip()`: drop leading and trailing whitespace. -/
def pyStrip (s : List Char) : List Char :=
  ((s.dropWhile isPySpace).reverse.dropWhile isPySpace).reverse

/-- Python `s.split("\n", 1)[-1]`: everything after the first newline, or the
whole string when it contains none. -/
def afterFirstNewline (s : List Char) : List Char :=
  let pre := s.takeWhile (fun c => !(c == '\n'))
  if pre.length = s.length then s else s.drop (pre.length + 1)

/-- Python `str.startswith` on character lists. -/
def startsWithLit (lit s : List Char) : Bool := (dropExact lit s).isSome

/-- Embeds the response handling of `ExamGenerator.generate_question`: `none`
models the generation-service call raising (the source's `except` branch
returning `None`); on success the free-text response is parsed into a
`GeneratedQuestion` whose `marks` is the constant `0` and whose section is
the section argument. -/
def generate_question (sectionArg : String) (response : Option String) :
    Option GeneratedQuestion :=
  match response with
  | none => none
  | some response_text =>
    let rt := response_text.data
    let question_text :=
      match afterLastMarker "Text:".data rt with
      | some r => pyStrip r
      | none =>
        match afterLastMarker "text:".data rt with
        | some r => pyStrip r
        | none => rt
    let question_text := pyStrip question_text
    let question_text :=
      if startsWithLit "Section:".data question_text then
        pyStrip (afterFirstNewline question_text)
      else question_text
    let question_text :=
      if startsWithLit "section:".data question_text then
        pyStrip (afterFirstNewline question_text)
      else question_text
    some { question_number := ""
           sectionName := sectionArg
           marks := 0
           text := (pyStrip question_text).asString
           answer_choices := none
           explanation := none }

/-- One result dictionary built by `QuestionRetriever.retrieve_by_query`
(the `exam_date`, `course`, `question_number`, `document` and `distance`
entries are carried along in the source but never read by the retrieval
logic verified here, and are omitted).  The source key `section` is spelled
`sectionName` because `section` is a Lean keyword. -/
structure RetrievedQuestion where
  id : String
  text : String
  sectionName : String
  marks : Int
  relevance_score : ℚ
deriving DecidableEq, Repr

/-- Stable insertion step for a descending sort by key. -/
def sortInsertDesc {α : Type} {β : Type} [LinearOrder β] (key : α → β) (x : α) :
    List α → List α
  | [] => [x]
  | y :: ys => if key y ≤ key x then x :: y :: ys else y :: sortInsertDesc key x ys

/-- Stable descending sort by key, the behaviour of Python
`sorted(l, key=key, reverse=True)`: keys are non-increasing and elements with
equal keys keep their original relative order. -/
def sortByDesc {α : Type} {β : Type} [LinearOrder β] (key : α → β) :
    List α → List α
  | [] => []
  | x :: xs => sortInsertDesc key x (sortByDesc key xs)

/-- Insertion-ordered increment of a section counter, the effect of
`section_counts[section] = section_counts.get(section, 0) + 1` on a Python
dict (insertion order preserved, counts updated in place). -/
def sectionBump : List (String × Nat) → String → List (String × Nat)
  | [], s => [(s, 1)]
  | (k, n) :: rest, s =>
    if k = s then (k, n + 1) :: rest else (k, n) :: sectionBump rest s

/-- Embeds `QuestionRetriever.get_section_statistics`.  The input is the
`section` metadata entry of each item of the index scan, in scan order
(`none` models a missing key, defaulted to `"Unknown"`). -/
def get_section_statistics (metadatas : List (Option String)) :
    List (String × Nat) :=
  metadatas.foldl (fun acc m => sectionBump acc (m.getD "Unknown")) []

/-- Difficulty phrase appended to a section query by
`retrieve_style_examples`. -/
def difficultyQueryPhrase (difficulty : String) : String :=
  if difficulty = "easy" then "simple basic programming question"
  else if difficulty = "hard" then "complex advanced programming question"
  else "programming question"

/-- Query string `" | ".join(["Section: <sec>", <phrase>])` built by
`retrieve_style_examples` for one section. -/
def sectionQuery (sec difficulty : String) : String :=
  "Section: " ++ sec ++ " | " ++ difficultyQueryPhrase difficulty

/-- Embeds the diversity branch of
`QuestionRetriever.retrieve_style_examples` (taken whenever no single
section is given or `ensure_diversity` is set).  `queryIndex` abstracts
`retrieve_by_query` — query text, `n_results`, section filter — whose
results come from the external embedding service and vector index.  `none`
models the `ZeroDivisionError` the source raises at
`max(1, n_examples // min(5, len(sections_list)))` when the index scan
yields no sections. -/
def retrieve_style_examples_diverse (metadatas : List (Option String))
    (queryIndex : String → Nat → Option String → List RetrievedQuestion)
    (n_examples : Nat) (difficulty : String) :
    Option (List RetrievedQuestion) :=
  let section_stats := get_section_statistics metadatas
  let sections_list := section_stats.map (fun p => p.1)
  if sections_list.length = 0 then none
  else
    let examples_per_section := max 1 (n_examples / min 5 sections_list.length)
    let all_results :=
      (sections_list.take (min 8 sections_list.length)).foldl
        (fun acc sec =>
          acc ++ (queryIndex (sectionQuery sec difficulty)
              (examples_per_section * 2) (some sec)).take examples_per_section)
        []
    some ((sortByDesc (fun r => r.relevance_score) all_results).take n_examples)

/-- Modelled from the claim wording for comparison: enumerate up to 8
sections ordered by their item count in the index, most populous first,
request `max(1, n / min(5, k))` items from each, concatenate, sort the union
by `relevance_score` descending and truncate to `n`. -/
def retrieveDiverseSpec (metadatas : List (Option String))
    (queryIndex : String → Nat → Option String → List RetrievedQuestion)
    (n_examples : Nat) (difficulty : String) : List RetrievedQuestion :=
  let stats := get_section_statistics metadatas
  let ranked := (sortByDesc (fun p => p.2) stats).map (fun p => p.1)
  let per_section := max 1 (n_examples / min 5 ranked.length)
  let gathered :=
    ((ranked.take 8).map (fun sec =>
      queryIndex (sectionQuery sec difficulty) per_section (some sec))).flatten
  (sortByDesc (fun r => r.relevance_score) gathered).take n_examples

/-- The amended description of the diversity retrieval: sections are
enumerated in their order of first appearance in the index scan (Python dict
insertion order, not sorted by item count), up to 8 of them; each
section-scoped query requests twice `max(1, n / min(5, k))` results of which
the first `max(1, n / min(5, k))` are kept; the concatenation is stably
sorted by `relevance_score` descending and truncated to `n`. -/
def retrieveDiverseAmended (metadatas : List (Option String))
    (queryIndex : String → Nat → Option String → List RetrievedQuestion)
    (n_examples : Nat) (difficulty : String) : List RetrievedQuestion :=
  let keys := (get_section_statistics metadatas).map (fun p => p.1)
  let per_section := max 1 (n_examples / min 5 keys.length)
  let gathered :=
    ((keys.take 8).map (fun sec =>
      (queryIndex (sectionQuery sec difficulty) (per_section * 2)
        (some sec)).take per_section)).flatten
  (sortByDesc (fun r => r.relevance_score) gathered).take n_examples

/-- Embeds the section-distribution logic of `main` (the code between the
truncation guard and the shuffle).  `none` models the `ZeroDivisionError`
raised at `max(1, num_questions // num_sections)` when the truncated section
list is empty (`num_questions = 0`, or an empty section list).  The source
then computes `questions_per_section` and `remainder` but never uses them;
the assignment list is one pass appending every section once followed by a
round-robin pass `sections_to_use[i % num_sections]` for the remaining
`num_questions - num_sections` slots.  `random.shuffle` then permutes the
list in place; theorems quantify over an arbitrary permutation of this
result. -/
def allocate (num_questions : Nat) (sections : List String) :
    Option (List String) :=
  let sections_to_use :=
    if num_questions < sections.length then sections.take num_questions
    else sections
  let num_sections := sections_to_use.length
  if num_sections = 0 then none
  else
    some (sections_to_use ++
      (List.range (num_questions - num_sections)).map
        (fun i => sections_to_use.getD (i % num_sections) ""))

/-- A question dictionary as persisted by `main` after approval: the
`model_dump` of the generated question plus `difficulty`, `quality_score`
and `generated_date`, minus `question_number` and `marks` (always deleted)
and minus `explanation` when it is falsy (absent or empty). -/
structure SavedQuestion where
  sectionName : String
  text : String
  answer_choices : Option (List String)
  explanation : Option String
  difficulty : String
  quality_score : ℚ
  generated_date : String
deriving DecidableEq, Repr

/-- The dictionary transformation `main` applies to an approved question
before appending it to the bank. -/
def saveQuestionDict (q : GeneratedQuestion) (difficulty : String) (score : ℚ)
    (generated_date : String) : SavedQuestion :=
  { sectionName := q.sectionName
    text := q.text
    answer_choices := q.answer_choices
    explanation :=
      match q.explanation with
      | some e => if e = "" then none else some e
      | none => none
    difficulty := difficulty
    quality_score := score
    generated_date := generated_date }

/-- Embeds the per-question generate/evaluate loop of `main` (lines 125-228):
one single pass over the allocated section assignments; each assignment is
generated once (`gen`, abstracting `generator.generate_question`, `none`
modelling a generation failure, which is skipped), evaluated once (`evalQ`,
abstracting `critic.evaluate_question`), and appended to the accepted list
exactly when its score reaches `min_score`.  No iteration budget, no
best-candidate state and no replacement rule exist in the source. -/
def generate_questions_loop (section_assignments : List String)
    (gen : String → Option GeneratedQuestion)
    (evalQ : GeneratedQuestion → QuestionEval)
    (min_score : ℚ) (difficulty generated_date : String) : List SavedQuestion :=
  section_assignments.foldl
    (fun acc sec =>
      match gen sec with
      | none => acc
      | some q =>
        let score := (evalQ q).score
        if min_score ≤ score then
          acc ++ [saveQuestionDict q difficulty score generated_date]
        else acc)
    []

/-- JSON values, for the persisted question-bank format. -/
inductive JValue where
  | null : JValue
  | bool : Bool → JValue
  | num : ℚ → JValue
  | str : String → JValue
  | arr : List JValue → JValue
  | obj : List (String × JValue) → JValue

/-- Field lookup in a JSON object (keys of an object produced by
`json.load` are unique, so first match suffices). -/
def lookupField : List (String × JValue) → String → Option JValue
  | [], _ => none
  | (k, v) :: rest, key => if k = key then some v else lookupField rest key

/-- Embeds the existing-bank reading of `main` (lines 252-266): a bare JSON
array is taken as the question list; a JSON object is consulted for a
`questions` key whose value is taken verbatim; every other shape leaves the
initial empty list.  Exceptions while reading are caught and also leave the
empty list, so reading never aborts the run. -/
def read_existing_questions (data : JValue) : JValue :=
  match data with
  | JValue.arr _ => data
  | JValue.obj fields =>
    match lookupField fields "questions" with
    | some v => v
    | none => JValue.arr []
  | _ => JValue.arr []

/-- The generation-request parameters, as in
`models.ExamGenerationRequest`.  The source declares
`sections: Optional[List[str]] = 6`, a type-invalid default that pydantic
does not validate; it is modelled as `none` here since no verified code path
reads the default. -/
structure ExamGenerationRequest where
  course : String := "APSC 142 - Introduction to Computer Programming for Engineers"
  target_marks : Int := 100
  difficulty : Option String := some "medium"
  sections : Option (List String) := none
  num_questions : Option Nat := none
  style_examples_count : Nat := 5
deriving DecidableEq, Repr

set_option maxRecDepth 8000

/-! Concrete inputs used by several of the verification theorems below. -/

/-- A question worth 50 marks. -/
def qFifty : Question := ⟨"1", "Functions", 50, "Write a function."⟩

/-- An exam totalling 100 marks whose date string matches none of the four
`parse_date` formats. -/
def examUnparsable : Exam :=
  ⟨⟨"APSC 142", "not a date"⟩,
   [⟨"1", "Functions", 50, "Write a function."⟩,
    ⟨"2", "1D Arrays", 50, "Write a loop."⟩]⟩

/-- An exam totalling 100 marks dated in the future. -/
def examFuture : Exam :=
  ⟨⟨"APSC 142", "2050-01-01"⟩,
   [⟨"1", "Functions", 50, "Write a function."⟩,
    ⟨"2", "1D Arrays", 50, "Write a loop."⟩]⟩

/-- An exam totalling 100 marks with a well-formed past date. -/
def examApril2013 : Exam :=
  ⟨⟨"APSC 142", "April 20, 2013"⟩,
   [⟨"1", "Functions", 50, "Write a function."⟩,
    ⟨"2", "1D Arrays", 50, "Write a loop."⟩]⟩

/-- A request asking for 50 target marks. -/
def reqFifty : ExamGenerationRequest := { target_marks := 50 }

/-- Two generated questions summing to 100 marks. -/
def qsHundred : List GeneratedQuestion :=
  [⟨"1", "Functions", 50, "Write a function.", none, none⟩,
   ⟨"2", "1D Arrays", 50, "Write a loop.", none, none⟩]

/-- A per-question evaluation stub that always scores 8 and approves. -/
def evalEight : GeneratedQuestion → QuestionEval := fun _ => ⟨8, true⟩

/-- A generation stub that always succeeds with a fixed text. -/
def genStub : String → Option GeneratedQuestion :=
  fun s => some ⟨"", s, 0, "A stub question.", none, none⟩

/-- A per-question evaluation stub that always scores exactly 7. -/
def evalSeven : GeneratedQuestion → QuestionEval := fun _ => ⟨7, true⟩

/-- Index scan in which section B has more items than section A but A
appears first. -/
def metasAB : List (Option String) := [some "A", some "B", some "B"]

/-- A retrieval result from section A with relevance 0.5. -/
def recA : RetrievedQuestion := ⟨"a1", "Question A.", "A", 5, 1 / 2⟩

/-- A retrieval result from section B with relevance 0.5. -/
def recB : RetrievedQuestion := ⟨"b1", "Question B.", "B", 5, 1 / 2⟩

/-- A query stub returning one fixed record per section filter. -/
def queryStub : String → Nat → Option String → List RetrievedQuestion :=
  fun _ _ filt =>
    if filt = some "A" then [recA]
    else if filt = some "B" then [recB]
    else []

/-- The pre-shuffle assignment list the allocator produces for
`allocate 10 [A, B, C]`. -/
def c6AssignList : List String :=
  ["A", "B", "C", "A", "B", "C", "A", "B", "C", "A"]

/-! Helper lemmas shared by the claim theorems. -/

/-- Bounds of the weighted combination used by the relevance score. -/
theorem weighted_sum_bounds (a b : ℚ) (ha0 : 0 ≤ a) (ha1 : a ≤ 1)
    (hb0 : 0 ≤ b) (hb1 : b ≤ 1) :
    0 ≤ (6 / 10) * a + (4 / 10) * b ∧ (6 / 10) * a + (4 / 10) * b ≤ 1 := by
  constructor <;> linarith

/-- The executable `pyMin` agrees with the order-theoretic minimum. -/
theorem pyMin_eq_min (a b : ℚ) : pyMin a b = min a b := (min_def a b).symm

/-- The executable `pyMax` agrees with the order-theoretic maximum. -/
theorem pyMax_eq_max (a b : ℚ) : pyMax a b = max a b := (max_def a b).symm

/-!
Claim C1.  The claim states that an unparsable parent timestamp makes the
recency component default to `0.5`, so a 50-mark item in a 100-mark exam
scores `0.6*0.5 + 0.4*0.5 = 0.5`.  The code disagrees: `parse_date` catches
every parse failure internally and returns `datetime(2000, 1, 1)`, so the
`except` branch assigning `date_score = 0.5` in `calculate_relevance_score`
is unreachable; an unparsable date behaves like 2000-01-01, whose recency
component is `max(0, 1 - ageDays/3650)` — `0` for any reference time from
3650 days after 2000-01-01 on — giving score `0.3`, not `0.5`.
-/

/-- Claim C1 is false as stated: with marks 50 of total 100, an unparsable
parent timestamp (`tryFormats` matches no format) and the reference day
2026-10-12, the relevance score is `0.3`, not the claimed `0.5`. -/
theorem c1_claim_counterexample :
    tryFormats "not a date" = none ∧
    calculate_relevance_score examUnparsable qFifty (toDays ⟨2026, 10, 12⟩) =
      3 / 10 ∧
    (3 / 10 : ℚ) ≠ 1 / 2 := by
  refine ⟨by decide, ?_, by norm_num⟩
  have hpd : parse_date examUnparsable.exam_metadata.date = ⟨2000, 1, 1⟩ := by decide
  have hgt : getTotalMarks examUnparsable = 100 := by decide
  have hdays : toDays ⟨2026, 10, 12⟩ - toDays ⟨2000, 1, 1⟩ = (9781 : ℤ) := by decide
  simp only [calculate_relevance_score, hpd, hgt, hdays]
  norm_num [qFifty, pyMin, pyMax]

/-- Claim C1 (amended): if the parent timestamp matches none of the four
date formats, `parse_date` falls back to 2000-01-01, so for every item with
`marks = 50` in a parent exam of total marks 100 and every reference day at
least 3650 days after 2000-01-01, the relevance score is
`0.6 * 0.5 + 0.4 * 0 = 0.3`. -/
theorem c1_unparsable_recency_amended (e : Exam) (q : Question) (now : Int)
    (hparse : tryFormats e.exam_metadata.date = none)
    (hq : q.marks = 50) (ht : getTotalMarks e = 100)
    (hnow : toDays ⟨2000, 1, 1⟩ + 3650 ≤ now) :
    calculate_relevance_score e q now = 3 / 10 := by
  have hd : (3650 : ℚ) ≤ ((now - toDays (parse_date e.exam_metadata.date) : ℤ) : ℚ) := by
    have h1 : parse_date e.exam_metadata.date = ⟨2000, 1, 1⟩ := by
      unfold parse_date
      rw [hparse]
      rfl
    rw [h1]
    have h2 : (3650 : ℤ) ≤ now - toDays ⟨2000, 1, 1⟩ := by omega
    exact_mod_cast h2
  simp only [calculate_relevance_score, ht, hq]
  have hmax : pyMax (0 : ℚ)
      (1 - ((now - toDays (parse_date e.exam_metadata.date) : ℤ) : ℚ) / 3650) = 0 := by
    rw [pyMax_eq_max]
    apply max_eq_left
    rw [sub_nonpos, le_div_iff₀ (by norm_num : (0 : ℚ) < 3650)]
    linarith
  rw [hmax]
  rw [if_neg (by norm_num : ¬(100 : ℤ) = 0)]
  rw [pyMin_eq_min]
  push_cast
  rw [min_eq_left (by norm_num : (50 : ℚ) / 100 ≤ 1)]
  norm_num

/-- Witness for the amended C1 theorem at a concrete unparsable input. -/
theorem c1_unparsable_recency_witness :
    calculate_relevance_score examUnparsable qFifty (toDays ⟨2026, 10, 13⟩) =
      3 / 10 :=
  c1_unparsable_recency_amended examUnparsable qFifty (toDays ⟨2026, 10, 13⟩)
    (by decide) (by decide) (by decide) (by decide)

/-!
Claim C5.  The claim states that the relevance score lies in `[0, 1]` for
every valid input, with a future parent timestamp giving a recency component
clamped to `1`.  The code only clamps from below — `max(0.0, 1.0 -
days_old/3650.0)` — so a parent timestamp later than the reference time makes
the recency component exceed `1` without bound and the score can leave
`[0, 1]`.  For timestamps not later than the reference time the score is in
`[0, 1]`.
-/

/-- Claim C5 is false as stated: for an exam dated 2050-01-01 scored from the
reference day 2020-01-01 (a valid input with marks 50 of total 100), the
relevance score exceeds 1. -/
theorem c5_range_counterexample :
    calculate_relevance_score examFuture qFifty (toDays ⟨2020, 1, 1⟩) =
      34691 / 18250 ∧
    ¬ calculate_relevance_score examFuture qFifty (toDays ⟨2020, 1, 1⟩) ≤ 1 := by
  have hpd : parse_date examFuture.exam_metadata.date = ⟨2050, 1, 1⟩ := by decide
  have hgt : getTotalMarks examFuture = 100 := by decide
  have hdays : toDays ⟨2020, 1, 1⟩ - toDays ⟨2050, 1, 1⟩ = (-10958 : ℤ) := by decide
  constructor <;>
    · simp only [calculate_relevance_score, hpd, hgt, hdays]
      norm_num [qFifty, pyMin, pyMax]

/-- Claim C5 (amended): for marks and parent totals that are nonnegative and
a parent timestamp not later than the reference time, the relevance score is
in `[0, 1]`; the recency component is clamped from below only, so this range
is not guaranteed for future timestamps. -/
theorem c5_score_range_amended (e : Exam) (q : Question) (now : Int)
    (hall : ∀ qq ∈ e.questions, 0 ≤ qq.marks) (hq : 0 ≤ q.marks)
    (hage : toDays (parse_date e.exam_metadata.date) ≤ now) :
    0 ≤ calculate_relevance_score e q now ∧
      calculate_relevance_score e q now ≤ 1 := by
  have hT : 0 ≤ getTotalMarks e := by
    unfold getTotalMarks
    apply List.sum_nonneg
    intro x hx
    obtain ⟨qq, hqq, rfl⟩ := List.mem_map.mp hx
    exact hall qq hqq
  have hdiff : 0 ≤ (if getTotalMarks e = 0 then (0 : ℚ)
        else pyMin ((q.marks : ℚ) / (getTotalMarks e : ℚ)) 1) ∧
      (if getTotalMarks e = 0 then (0 : ℚ)
        else pyMin ((q.marks : ℚ) / (getTotalMarks e : ℚ)) 1) ≤ 1 := by
    by_cases h : getTotalMarks e = 0
    · simp [h]
    · rw [if_neg h, pyMin_eq_min]
      have hTpos : (0 : ℚ) < (getTotalMarks e : ℚ) := by
        have : 0 < getTotalMarks e := lt_of_le_of_ne hT (Ne.symm h)
        exact_mod_cast this
      refine ⟨le_min (div_nonneg (by exact_mod_cast hq) hTpos.le) zero_le_one,
        min_le_right _ _⟩
  have hdnn : (0 : ℚ) ≤ ((now - toDays (parse_date e.exam_metadata.date) : ℤ) : ℚ) := by
    have h2 : (0 : ℤ) ≤ now - toDays (parse_date e.exam_metadata.date) := by omega
    exact_mod_cast h2
  have hdate : 0 ≤ pyMax (0 : ℚ)
        (1 - ((now - toDays (parse_date e.exam_metadata.date) : ℤ) : ℚ) / 3650) ∧
      pyMax (0 : ℚ)
        (1 - ((now - toDays (parse_date e.exam_metadata.date) : ℤ) : ℚ) / 3650) ≤ 1 := by
    rw [pyMax_eq_max]
    refine ⟨le_max_left _ _, max_le zero_le_one ?_⟩
    have : (0 : ℚ) ≤ ((now - toDays (parse_date e.exam_metadata.date) : ℤ) : ℚ) / 3650 :=
      div_nonneg hdnn (by norm_num)
    linarith
  simp only [calculate_relevance_score]
  exact weighted_sum_bounds _ _ hdiff.1 hdiff.2 hdate.1 hdate.2

/-- Witness for the amended C5 theorem at a concrete past-dated input. -/
theorem c5_score_range_witness :
    0 ≤ calculate_relevance_score examApril2013 qFifty (toDays ⟨2026, 10, 12⟩) ∧
      calculate_relevance_score examApril2013 qFifty (toDays ⟨2026, 10, 12⟩) ≤ 1 :=
  c5_score_range_amended examApril2013 qFifty (toDays ⟨2026, 10, 12⟩)
    (by decide) (by decide) (by decide)

/-!
Claim C7.  The quality gate applies the ordered pattern list and takes, for
each pattern in turn, its first match, accepting it when its value lies in
`[0, 10]`; `"Overall quality score: 8/10"` parses to `8.0` and a text
matching no pattern yields the default `7.0`.  Both hold on the code.
-/

/-- Claim C7: the critique text `"Overall quality score: 8/10"` parses to 8,
and every text in which none of the four patterns matches anywhere parses to
the default 7. -/
theorem c7_score_parsing :
    parseScore "Overall quality score: 8/10" = 8 ∧
    ∀ t : String,
      npSearch critic_p1 t.data = none → npSearch critic_p2 t.data = none →
      npSearch critic_p3 t.data = none → npSearch critic_p4 t.data = none →
      parseScore t = 7 := by
  constructor
  · have h1 : npSearch critic_p1 "Overall quality score: 8/10".data =
        some ['8'] := by decide
    have h2 : pyFloat ['8'] = 8 := by with_unfolding_all decide
    simp only [parseScore, scorePatterns, extract_score, h1, h2]
    norm_num
  · intro t h1 h2 h3 h4
    simp only [parseScore, scorePatterns, extract_score, h1, h2, h3, h4]

/-- Witness for C7 at a concrete pattern-free text. -/
theorem c7_score_parsing_witness :
    npSearch critic_p1 "hello".data = none ∧
    npSearch critic_p2 "hello".data = none ∧
    npSearch critic_p3 "hello".data = none ∧
    npSearch critic_p4 "hello".data = none ∧
    parseScore "hello" = 7 :=
  ⟨by decide, by decide, by decide, by decide,
   c7_score_parsing.2 "hello" (by decide) (by decide) (by decide) (by decide)⟩

/-!
Claim C9.  Every question the generator successfully builds carries
`marks = 0` (the constructor passes the constant `0`), so a set of generated
questions totals 0 marks and fails the mark-distribution check (the check
compares against the fixed target 100 with tolerance 10).
-/

/-- Claim C9: a successfully built question has `marks = 0`, and an item set
of zero-mark questions has total marks 0 and fails the mark-distribution
check. -/
theorem c9_generated_marks_zero :
    (∀ (sec : String) (resp : Option String) (q : GeneratedQuestion),
        generate_question sec resp = some q → q.marks = 0) ∧
    (∀ (qs : List GeneratedQuestion) (evalQ : GeneratedQuestion → QuestionEval),
        (∀ q ∈ qs, q.marks = 0) →
        (evaluate_exam qs evalQ).total_marks = 0 ∧
          (evaluate_exam qs evalQ).mark_distribution_ok = false) := by
  constructor
  · intro sec resp q h
    cases resp with
    | none => simp [generate_question] at h
    | some t =>
      simp only [generate_question, Option.some.injEq] at h
      rw [← h]
  · intro qs evalQ hall
    have hsum : ((qs.map (fun q => q.marks)).sum : Int) = 0 := by
      apply List.sum_eq_zero
      intro x hx
      obtain ⟨q, hq, rfl⟩ := List.mem_map.mp hx
      exact hall q hq
    refine ⟨?_, ?_⟩
    · simp only [evaluate_exam]
      exact hsum
    · simp only [evaluate_exam, hsum]
      norm_num

/-- Witness for C9 at a concrete generated question and singleton item set. -/
theorem c9_generated_marks_zero_witness :
    generate_question "Functions" (some "A question.") =
      some ⟨"", "Functions", 0, "A question.", none, none⟩ ∧
    (⟨"", "Functions", 0, "A question.", none, none⟩ : GeneratedQuestion).marks = 0 ∧
    (evaluate_exam [⟨"", "Functions", 0, "A question.", none, none⟩] evalEight).total_marks = 0 ∧
    (evaluate_exam [⟨"", "Functions", 0, "A question.", none, none⟩] evalEight).mark_distribution_ok = false := by
  refine ⟨by decide, ?_, ?_, ?_⟩
  · exact c9_generated_marks_zero.1 "Functions" (some "A question.") _ (by decide)
  · exact (c9_generated_marks_zero.2 _ evalEight (by decide)).1
  · exact (c9_generated_marks_zero.2 _ evalEight (by decide)).2

/-!
Claim C10.  The generator always writes the section argument into the built
question's section field, regardless of any section label in the response
text (the source comments this choice explicitly).
-/

/-- Claim C10: every successfully built question has its section field equal
to the section argument. -/
theorem c10_section_preserved :
    ∀ (sec : String) (resp : Option String) (q : GeneratedQuestion),
      generate_question sec resp = some q → q.sectionName = sec := by
  intro sec resp q h
  cases resp with
  | none => simp [generate_question] at h
  | some t =>
    simp only [generate_question, Option.some.injEq] at h
    rw [← h]

/-- Witness for C10 at a response that itself carries a different section
label. -/
theorem c10_section_preserved_witness :
    generate_question "Functions" (some "Section: 1D Arrays\nWrite a loop.") =
      some ⟨"", "Functions", 0, "Write a loop.", none, none⟩ ∧
    (⟨"", "Functions", 0, "Write a loop.", none, none⟩ : GeneratedQuestion).sectionName =
      "Functions" :=
  ⟨by decide,
   c10_section_preserved "Functions" (some "Section: 1D Arrays\nWrite a loop.") _ (by decide)⟩

/-!
Claim C2.  The claim states the mark-distribution check compares the summed
marks against the request's `targetMarks`.  The code hardcodes the target
`100` in `evaluate_exam` and never consults the request, so the claim fails
for any request whose `target_marks` differs from 100.  The approval rule
(`approvalRate ≥ 0.7` and the mark check) is as claimed.
-/

/-- Claim C2 is false as stated: for a request with `target_marks = 50` and
an exam totalling 100 marks, the code's mark-distribution check passes while
`|100 - 50| ≤ 10` fails, refuting the claimed equivalence. -/
theorem c2_target_marks_counterexample :
    reqFifty.target_marks = 50 ∧
    ¬ (((evaluate_exam qsHundred evalEight).mark_distribution_ok = true) ↔
        ((qsHundred.map (fun q => q.marks)).sum - reqFifty.target_marks).natAbs ≤ 10) := by
  refine ⟨rfl, ?_⟩
  intro hiff
  have h1 : (evaluate_exam qsHundred evalEight).mark_distribution_ok = true := by decide
  have h2 : ¬ ((qsHundred.map (fun q => q.marks)).sum - reqFifty.target_marks).natAbs ≤ 10 := by
    decide
  exact h2 (hiff.mp h1)

/-- Claim C2 (amended): the mark-distribution check holds exactly when the
summed marks are within 10 of the fixed constant 100 (not of the request's
`target_marks`), and the exam is approved exactly when the approval rate is
at least 0.7 and the mark-distribution check holds. -/
theorem c2_aggregation_amended (qs : List GeneratedQuestion)
    (evalQ : GeneratedQuestion → QuestionEval) :
    ((evaluate_exam qs evalQ).mark_distribution_ok = true ↔
      ((qs.map (fun q => q.marks)).sum - 100).natAbs ≤ 10) ∧
    ((evaluate_exam qs evalQ).exam_approved = true ↔
      ((7 : ℚ) / 10 ≤
          ((qs.map evalQ).countP (fun e => e.approved) : ℚ) / (qs.length : ℚ) ∧
        ((qs.map (fun q => q.marks)).sum - 100).natAbs ≤ 10)) := by
  constructor
  · simp [evaluate_exam]
  · cases qs with
    | nil => simp [evaluate_exam]
    | cons q rest =>
      simp [evaluate_exam, Bool.and_eq_true, decide_eq_true_eq]

/-!
Claim C3.  The claim describes a two-iteration controller tracking a best
candidate replaced only on strictly greater overall score.  No such loop
exists in `main`: the source makes one single pass over the allocated
assignments, evaluates each generated question once, and appends every
question whose score reaches `min_score` (default 7.0) to the accepted list.
With two questions both scoring 7.0, both are kept — the result is not the
first candidate alone, and nothing is ever replaced or discarded in favour
of a best.
-/

/-- Claim C3 is false as stated: running the loop over two assignments whose
questions both score exactly 7.0 (the default `min_score`), the accepted
list contains both questions, not only the first iteration's candidate. -/
theorem c3_best_tracking_counterexample :
    generate_questions_loop ["Functions", "Algorithms"] genStub evalSeven 7
        "medium" "2026-10-12" =
      [saveQuestionDict ⟨"", "Functions", 0, "A stub question.", none, none⟩
         "medium" 7 "2026-10-12",
       saveQuestionDict ⟨"", "Algorithms", 0, "A stub question.", none, none⟩
         "medium" 7 "2026-10-12"] ∧
    [saveQuestionDict ⟨"", "Functions", 0, "A stub question.", none, none⟩
       "medium" 7 "2026-10-12",
     saveQuestionDict ⟨"", "Algorithms", 0, "A stub question.", none, none⟩
       "medium" 7 "2026-10-12"] ≠
      [saveQuestionDict ⟨"", "Functions", 0, "A stub question.", none, none⟩
         "medium" 7 "2026-10-12"] := by
  constructor
  · with_unfolding_all decide
  · intro h
    have := congrArg List.length h
    simp at this

/-- Auxiliary characterisation of the accept-accumulate fold of `main`. -/
theorem loop_foldl_general (gen : String → Option GeneratedQuestion)
    (evalQ : GeneratedQuestion → QuestionEval) (min_score : ℚ)
    (difficulty generated_date : String) :
    ∀ (l : List String) (acc : List SavedQuestion),
      l.foldl
        (fun acc sec =>
          match gen sec with
          | none => acc
          | some q =>
            let score := (evalQ q).score
            if min_score ≤ score then
              acc ++ [saveQuestionDict q difficulty score generated_date]
            else acc)
        acc =
      acc ++ ((l.filterMap gen).filter
          (fun q => decide (min_score ≤ (evalQ q).score))).map
        (fun q => saveQuestionDict q difficulty (evalQ q).score generated_date) := by
  intro l
  induction l with
  | nil => intro acc; simp
  | cons sec rest ih =>
    intro acc
    simp only [List.foldl_cons, List.filterMap_cons]
    cases hg : gen sec with
    | none => simp [ih]
    | some q =>
      by_cases hs : min_score ≤ (evalQ q).score
      · simp [hs, ih, List.filter_cons, List.append_assoc]
      · simp [hs, ih, List.filter_cons]

/-- Claim C3 (amended): the loop of `main` performs one single pass with no
best-candidate tracking; its result is exactly the generated questions whose
scores reach `min_score`, in assignment order, each saved with its own
score. -/
theorem c3_loop_amended (section_assignments : List String)
    (gen : String → Option GeneratedQuestion)
    (evalQ : GeneratedQuestion → QuestionEval)
    (min_score : ℚ) (difficulty generated_date : String) :
    generate_questions_loop section_assignments gen evalQ min_score difficulty
        generated_date =
      ((section_assignments.filterMap gen).filter
          (fun q => decide (min_score ≤ (evalQ q).score))).map
        (fun q => saveQuestionDict q difficulty (evalQ q).score generated_date) := by
  unfold generate_questions_loop
  simpa using
    loop_foldl_general gen evalQ min_score difficulty generated_date
      section_assignments []

/-!
Claim C8.  The claim states that an object with an `items` or `questions`
key is accepted when reading the persisted bank.  The code recognises only
the `questions` key (both in `main` and in `add_to_vector_db.add_from_json`);
an object with only an `items` key is an unknown shape and yields the empty
list.  Bare arrays, the `questions` key, and the silent empty-list fallback
for every other shape are as claimed.
-/

/-- Claim C8 is false as stated: an object carrying the question list under
the `items` key is read as the empty list, not as that list. -/
theorem c8_items_key_counterexample :
    read_existing_questions
        (JValue.obj [("items", JValue.arr [JValue.str "q1"])]) =
      JValue.arr [] ∧
    JValue.arr [] ≠ JValue.arr [JValue.str "q1"] := by
  refine ⟨rfl, ?_⟩
  intro h
  injection h with h2
  exact List.cons_ne_nil _ _ h2.symm

/-- Claim C8 (amended): a bare array is read as itself; an object is
consulted for the `questions` key only, whose value is taken verbatim when
present; every other shape — objects without `questions` included — reads as
the empty list, and reading is total so it never aborts the run. -/
theorem c8_bank_reading_amended :
    (∀ xs : List JValue,
      read_existing_questions (JValue.arr xs) = JValue.arr xs) ∧
    (∀ (fields : List (String × JValue)) (v : JValue),
      lookupField fields "questions" = some v →
      read_existing_questions (JValue.obj fields) = v) ∧
    (∀ fields : List (String × JValue),
      lookupField fields "questions" = none →
      read_existing_questions (JValue.obj fields) = JValue.arr []) ∧
    read_existing_questions JValue.null = JValue.arr [] ∧
    (∀ b, read_existing_questions (JValue.bool b) = JValue.arr []) ∧
    (∀ q, read_existing_questions (JValue.num q) = JValue.arr []) ∧
    (∀ s, read_existing_questions (JValue.str s) = JValue.arr []) := by
  refine ⟨fun xs => rfl, ?_, ?_, rfl, fun b => rfl, fun q => rfl, fun s => rfl⟩
  · intro fields v h
    simp [read_existing_questions, h]
  · intro fields h
    simp [read_existing_questions, h]

/-- Witness for C8 at a concrete object with a `questions` key. -/
theorem c8_bank_reading_witness :
    lookupField [("questions", JValue.arr [JValue.str "q1"])] "questions" =
      some (JValue.arr [JValue.str "q1"]) ∧
    read_existing_questions
        (JValue.obj [("questions", JValue.arr [JValue.str "q1"])]) =
      JValue.arr [JValue.str "q1"] :=
  ⟨rfl, c8_bank_reading_amended.2.1 _ _ rfl⟩

/-!
Claim C4.  The claim states that diversity-seeking retrieval enumerates up
to 8 sections ordered by item count, most populous first.  The code takes
`list(section_stats.keys())` — Python dict insertion order, i.e. the order
of first appearance in the index scan — and never sorts it; the ranking by
populousness exists elsewhere (the auto-selection in `main`) but not here.
Each section-scoped query also requests twice `max(1, n // min(5, k))`
results and keeps the first `max(1, n // min(5, k))` of them.
-/

/-- Accumulating a fold of appends is the flattening of a map. -/
theorem foldl_append_flatten {α β : Type} (f : α → List β) :
    ∀ (l : List α) (acc : List β),
      l.foldl (fun a x => a ++ f x) acc = acc ++ (l.map f).flatten := by
  intro l
  induction l with
  | nil => intro acc; simp
  | cons x xs ih => intro acc; simp [ih]

/-- Taking `min 8 (length l)` elements is the same as taking 8. -/
theorem take_min_eight {α : Type} (l : List α) :
    l.take (min 8 l.length) = l.take 8 := by
  rcases le_total l.length 8 with h | h
  · rw [min_eq_right h, List.take_length, List.take_of_length_le h]
  · rw [min_eq_left h]

/-- Claim C4 is false as stated: over an index scan in which section A
appears once before section B's two items, the code enumerates A before B
(first-appearance order) while the claimed procedure enumerates B first;
with tying relevance scores the two orders are observable in the output,
which differ. -/
theorem c4_ranking_counterexample :
    retrieve_style_examples_diverse metasAB queryStub 2 "medium" =
      some [recA, recB] ∧
    retrieveDiverseSpec metasAB queryStub 2 "medium" = [recB, recA] ∧
    some ([recA, recB] : List RetrievedQuestion) ≠ some [recB, recA] := by
  refine ⟨by with_unfolding_all decide, by with_unfolding_all decide, ?_⟩
  intro h
  have h2 : ([recA, recB] : List RetrievedQuestion) = [recB, recA] :=
    Option.some.inj h
  have h3 : recA = recB := by
    have := congrArg (fun l => l.headD recA) h2
    simpa using this
  have : recA.id = recB.id := congrArg RetrievedQuestion.id h3
  simp [recA, recB] at this

/-- Claim C4 (amended): the diversity retrieval enumerates up to 8 sections
in first-appearance order of the index scan, requests `2 * max(1, n /
min(5, k))` items per section keeping the first `max(1, n / min(5, k))`,
concatenates, stably sorts by relevance descending and truncates to `n` —
provided the scan shows at least one section (with none, the code divides by
zero). -/
theorem c4_diversity_amended (metadatas : List (Option String))
    (queryIndex : String → Nat → Option String → List RetrievedQuestion)
    (n_examples : Nat) (difficulty : String)
    (h : 0 < (get_section_statistics metadatas).length) :
    retrieve_style_examples_diverse metadatas queryIndex n_examples difficulty =
      some (retrieveDiverseAmended metadatas queryIndex n_examples difficulty) := by
  unfold retrieve_style_examples_diverse retrieveDiverseAmended
  have hlen : ¬ ((get_section_statistics metadatas).map (fun p => p.1)).length = 0 := by
    simp only [List.length_map]
    omega
  rw [if_neg hlen]
  simp only [foldl_append_flatten, take_min_eight, List.nil_append]

/-- Witness for the amended C4 theorem at a concrete one-section scan. -/
theorem c4_diversity_witness :
    0 < (get_section_statistics [some "A"]).length ∧
    retrieve_style_examples_diverse [some "A"] (fun _ _ _ => []) 1 "medium" =
      some (retrieveDiverseAmended [some "A"] (fun _ _ _ => []) 1 "medium") :=
  ⟨by decide, c4_diversity_amended [some "A"] (fun _ _ _ => []) 1 "medium" (by decide)⟩

/-!
Claim C6.  The claimed multiset of sections is correct for every positive
item count: each section receives `floor(n/k)` slots plus one extra for the
first `n mod k` sections, and for `n < k` the first `n` sections appear once
each.  The claim fails only at `n = 0`: the truncation then empties the
section list and the source raises `ZeroDivisionError` at
`max(1, num_questions // num_sections)` instead of returning an empty
sequence.
-/

/-- Counting the residues equal to `j` among `0, …, m-1` modulo `k`. -/
theorem countP_range_mod (k j : Nat) (hj : j < k) (m : Nat) :
    (List.range m).countP (fun i => i % k == j) =
      m / k + if j < m % k then 1 else 0 := by
  have hk : 0 < k := Nat.lt_of_le_of_lt (Nat.zero_le j) hj
  induction m with
  | zero => simp
  | succ m ih =>
    rw [List.range_succ, List.countP_append, ih]
    simp only [List.countP_cons, List.countP_nil, Nat.zero_add]
    obtain ⟨q, r, hr, hm⟩ : ∃ q r, r < k ∧ m = r + q * k :=
      ⟨m / k, m % k, Nat.mod_lt m hk, by
        rw [Nat.add_comm, Nat.mul_comm]
        exact (Nat.div_add_mod m k).symm⟩
    subst hm
    have hdiv0 : (r + q * k) / k = q := by
      rw [Nat.add_mul_div_right _ _ hk, Nat.div_eq_of_lt hr]
      omega
    have hmod0 : (r + q * k) % k = r := by
      rw [Nat.add_mul_mod_self_right, Nat.mod_eq_of_lt hr]
    have e1 : r + q * k + 1 = (r + 1) + q * k := by omega
    rw [hdiv0, hmod0, e1, Nat.add_mul_div_right _ _ hk,
      Nat.add_mul_mod_self_right]
    by_cases hrk : r + 1 = k
    · rw [hrk, Nat.div_self hk, Nat.mod_self]
      simp only [beq_iff_eq]
      split_ifs <;> omega
    · have h2 : r + 1 < k := by omega
      rw [Nat.div_eq_of_lt h2, Nat.mod_eq_of_lt h2]
      simp only [beq_iff_eq]
      split_ifs <;> omega

/-- Occurrence count in a mapped list, as a predicate count. -/
theorem count_map_eq_countP {α β : Type} [DecidableEq β] (f : α → β)
    (l : List α) (b : β) :
    (l.map f).count b = l.countP (fun a => f a == b) := by
  induction l with
  | nil => simp
  | cons x xs ih => simp [List.count_cons, List.countP_cons, ih]

/-- Occurrence count of the j-th element of a duplicate-free list in its
n-prefix. -/
theorem count_take_of_nodup {α : Type} [DecidableEq α] (l : List α)
    (hl : l.Nodup) (n j : Nat) (hj : j < l.length) :
    (l.take n).count (l.get ⟨j, hj⟩) = if j < n then 1 else 0 := by
  by_cases h : j < n
  · rw [if_pos h]
    apply List.count_eq_one_of_mem (List.Nodup.sublist (List.take_sublist n l) hl)
    have hj2 : j < (l.take n).length := by
      rw [List.length_take]
      omega
    have he : (l.take n).get ⟨j, hj2⟩ = l.get ⟨j, hj⟩ := by
      simp [List.get_eq_getElem, List.getElem_take]
    rw [← he]
    exact List.get_mem _ _ _
  · rw [if_neg h]
    apply List.count_eq_zero_of_not_mem
    intro hmem
    obtain ⟨i, hi, hig⟩ := List.getElem_of_mem hmem
    have hi2 : i < l.length := by
      rw [List.length_take] at hi
      omega
    have hig2 : l.get ⟨i, hi2⟩ = l.get ⟨j, hj⟩ := by
      rw [List.get_eq_getElem, ← @List.getElem_take _ l n i hi]
      exact hig
    have hij : i = j := by
      simpa using (List.Nodup.get_inj_iff hl).mp hig2
    rw [List.length_take] at hi
    omega

/-- Claim C6 is false as stated: for item count 0 over the non-empty section
list `[A, B, C]` the allocator raises `ZeroDivisionError` (embedded as
`none`) rather than returning the empty assignment sequence. -/
theorem c6_zero_items_counterexample :
    allocate 0 ["A", "B", "C"] = none := by decide

/-- Claim C6 (amended): for every item count of at least 1 and duplicate-free
non-empty section list, the allocator succeeds; any permutation of its
result (such as the shuffled assignment order) has length `n` and contains
the `j`-th section exactly once when `n < k` and `j < n` (never when
`j ≥ n`), and exactly `n / k` plus one extra for `j < n mod k` times when
`n ≥ k`. -/
theorem c6_allocation_amended (n : Nat) (sections : List String)
    (l shuffled : List String) (hn : 1 ≤ n) (hnd : sections.Nodup)
    (hl : allocate n sections = some l) (hperm : shuffled.Perm l) :
    shuffled.length = n ∧
    ∀ (j : Nat) (hj : j < sections.length),
      shuffled.count (sections.get ⟨j, hj⟩) =
        if n < sections.length then (if j < n then 1 else 0)
        else n / sections.length + (if j < n % sections.length then 1 else 0) := by
  unfold allocate at hl
  by_cases hlt : n < sections.length
  · simp only [if_pos hlt] at hl
    have htl : (sections.take n).length = n := by
      rw [List.length_take]
      omega
    rw [htl, if_neg (by omega : ¬ n = 0), Nat.sub_self] at hl
    simp only [List.range_zero, List.map_nil, List.append_nil] at hl
    have hl' : sections.take n = l := Option.some.inj hl
    constructor
    · rw [hperm.length_eq, ← hl', htl]
    · intro j hj
      rw [if_pos hlt, hperm.count_eq, ← hl']
      exact count_take_of_nodup sections hnd n j hj
  · simp only [if_neg hlt] at hl
    by_cases hk : sections.length = 0
    · rw [if_pos hk] at hl
      exact absurd hl (by simp)
    · rw [if_neg hk] at hl
      have hl' := Option.some.inj hl
      have hkpos : 0 < sections.length := Nat.pos_of_ne_zero hk
      constructor
      · rw [hperm.length_eq, ← hl']
        simp only [List.length_append, List.length_map, List.length_range]
        omega
      · intro j hj
        rw [if_neg hlt, hperm.count_eq, ← hl', List.count_append]
        have h1 : sections.count (sections.get ⟨j, hj⟩) = 1 :=
          List.count_eq_one_of_mem hnd (List.get_mem _ _ _)
        have hcongr : ∀ i ∈ List.range (n - sections.length),
            (sections.getD (i % sections.length) "" == sections.get ⟨j, hj⟩) =
              (i % sections.length == j) := by
          intro i _
          have him : i % sections.length < sections.length := Nat.mod_lt i hkpos
          rw [List.getD_eq_getElem sections "" him,
            ← List.get_eq_getElem sections ⟨i % sections.length, him⟩]
          by_cases he : i % sections.length = j
          · simp [he]
          · have hne : sections.get ⟨i % sections.length, him⟩ ≠ sections.get ⟨j, hj⟩ := by
              intro hcon
              apply he
              simpa using (List.Nodup.get_inj_iff hnd).mp hcon
            rw [beq_eq_false_iff_ne.mpr hne, beq_eq_false_iff_ne.mpr he]
        have h2 : ((List.range (n - sections.length)).map
              (fun i => sections.getD (i % sections.length) "")).count
              (sections.get ⟨j, hj⟩) =
            (n - sections.length) / sections.length +
              if j < (n - sections.length) % sections.length then 1 else 0 := by
          rw [count_map_eq_countP,
            List.countP_congr (fun i hi => by rw [hcongr i hi])]
          exact countP_range_mod sections.length j hj (n - sections.length)
        rw [h1, h2]
        have e1 : n - sections.length + sections.length = n := by omega
        have hdiv : (n - sections.length) / sections.length + 1 =
            n / sections.length := by
          rw [← Nat.add_div_right _ hkpos, e1]
        have hmod : (n - sections.length) % sections.length =
            n % sections.length := by
          conv_rhs => rw [← e1]
          rw [Nat.add_mod_right]
        rw [hmod, ← hdiv]
        ring

/-- Witness for the amended C6 theorem: `allocate 10 [A, B, C]` yields 10
assignments of which section A (index 0) receives exactly 4. -/
theorem c6_allocation_witness :
    allocate 10 ["A", "B", "C"] = some c6AssignList ∧
    c6AssignList.length = 10 ∧
    c6AssignList.count ((["A", "B", "C"] : List String).get ⟨0, by norm_num⟩) = 4 := by
  have h := c6_allocation_amended 10 ["A", "B", "C"] c6AssignList c6AssignList
    (by norm_num) (by decide) (by decide) (List.Perm.refl _)
  refine ⟨by decide, h.1, ?_⟩
  have h2 := h.2 0 (by norm_num)
  simpa using h2

end ExamGen
